import Mathlib

/-!
# Verification of the protocol-viewer playback controller

Shallow embedding of `src/app/page.tsx`.

The component is a React function component.  Its `useState` hooks are
modelled as fields of an explicit record `AppState`.  React semantics are
modelled faithfully:

* an event handler reads the *snapshot* of the state from the render that
  created it; `setX(prev => f prev)` updates are applied functionally to
  the next committed state, but never change what the handler's own local
  reads observe;
* DOM `HTMLAudioElement` objects live outside React state.  They are
  modelled as a mutable media layer `media : Nat → Option AudioElem`
  indexed by a fresh identifier (`nextId`); `audioRefs` stores the
  identifier of the element created for each protocol category.  DOM
  mutations (`audio.pause()`, `audio.play()`, `audio.currentTime = t`)
  take effect immediately, unlike React state updates;
* the event listeners registered on an audio element (`ended`, `pause`,
  `loadedmetadata`, `timeupdate`, `error`) and the rejection handler of
  `audio.play().catch` run as separate operations delivered later by the
  event loop; they are modelled as standalone state transformers.

The protocol loader (`useEffect` + `loadProtocols`) is split into the
synchronous prefix `issueLoad` (before the `await`s) and the resumption
`resolveLoad` (after them), so that interleavings with user switches can
be expressed.  `Promise.all` over the three fetches is modelled by
`promiseAll3`, parameterised by the order in which the individual fetches
settle; per JavaScript semantics the array it yields is positional and
independent of that order.
-/

set_option autoImplicit false

namespace ProtocolViewer

/-- Action classification of an intervention (`"START" | "CONTINUE" | "AVOID"`). -/
inductive Action where
  | START
  | CONTINUE
  | AVOID
deriving DecidableEq

/-- One `{ Field, Details }` entry of an intervention's `details` array. -/
structure DetailEntry where
  Field : String
  Details : String
deriving DecidableEq

/-- One `{ Field, Value }` entry of an intervention's `parameters` array. -/
structure ParameterEntry where
  Field : String
  Value : String
deriving DecidableEq

/-- One `{ Biomarker, Status }` entry of `target_biomarkers`. -/
structure BiomarkerEntry where
  Biomarker : String
  Status : String
deriving DecidableEq

/-- The `Intervention` type of `page.tsx` (optional fields become `Option`). -/
structure Intervention where
  name : String
  number : Nat
  action : Action
  frequency : Option String := none
  time : Option String := none
  scientific_rationale : String
  details : List DetailEntry
  parameters : List ParameterEntry
  target_biomarkers : List BiomarkerEntry
  ranking : Nat
  personalized_note : Option String := none
  lifestyle_context : Option String := none
deriving DecidableEq

/-- The `Protocol` type of `page.tsx`. -/
structure Protocol where
  protocol_type : String
  title : String
  interventions : List Intervention
  total_interventions : Nat
deriving DecidableEq

/-- The `User` type of `page.tsx`. -/
structure User where
  id : String
  name : String
  initials : String
  description : String
deriving DecidableEq

/-- The hardcoded `users` roster. -/
def users : List User :=
  [ { id := "nik", name := "Nik", initials := "N",
      description := "33-year-old male, active lifestyle" },
    { id := "tyler", name := "Tyler", initials := "T",
      description := "Active male, comprehensive data" },
    { id := "katie", name := "Katie", initials := "K",
      description := "40-year-old female, postpartum" },
    { id := "arnav", name := "Arnav", initials := "A",
      description := "19-year-old male, vegetarian athlete" } ]

/-- `getAudioFile`: the switch over the protocol category; unknown
categories fall through to the empty string. -/
def getAudioFile (type userId : String) : String :=
  if type = "exercise" then "/data/" ++ userId ++ "_exercise.mp3"
  else if type = "nutrition" then "/data/" ++ userId ++ "_nutrition.mp3"
  else if type = "supplements" then "/data/" ++ userId ++ "_supplements.mp3"
  else ""

/-- A DOM `HTMLAudioElement` as far as the component observes it.
`duration` is `none` while the metadata has not loaded (the DOM reports
`NaN` there, which is falsy in the guards `if (audio.duration)` and
`if (!audio.duration)`). -/
structure AudioElem where
  src : String
  currentTime : ℚ
  duration : Option ℚ
  paused : Bool
deriving DecidableEq

/-- JavaScript-object semantics for the `{ [key: string]: T }` state maps:
lookup of a key (first — and only — entry with that key). -/
def objGet {α : Type} : List (String × α) → String → Option α
  | [], _ => none
  | kv :: rest, k => if kv.1 = k then some kv.2 else objGet rest k

/-- JavaScript-object semantics of the spread update
`{ ...prev, [k]: v }`: replace the entry in place, or append a new one. -/
def objSet {α : Type} : List (String × α) → String → α → List (String × α)
  | [], k, v => [(k, v)]
  | kv :: rest, k, v => if kv.1 = k then (k, v) :: rest else kv :: objSet rest k v

/-- The whole component state: the `useState` hooks of `ProtocolViewer`
plus the media layer holding the created audio elements. -/
structure AppState where
  selectedUser : User
  selectedIntervention : Option Intervention
  selectedProtocol : Option Protocol
  protocols : List Protocol
  loading : Bool
  error : Option String
  playingAudio : Option String
  audioRefs : List (String × Nat)
  audioProgress : List (String × ℚ)
  audioDuration : List (String × ℚ)
  showUserSelector : Bool
  media : Nat → Option AudioElem
  nextId : Nat

/-- The initial state of the component (the `useState` initialisers). -/
def initState : AppState where
  selectedUser := users.get ⟨0, by decide⟩
  selectedIntervention := none
  selectedProtocol := none
  protocols := []
  loading := true
  error := none
  playingAudio := none
  audioRefs := []
  audioProgress := []
  audioDuration := []
  showUserSelector := false
  media := fun _ => none
  nextId := 0

/-- `audio.pause()` on the element with the given identifier (the `pause`
DOM event it fires is delivered later, as `pauseListener`). -/
def mediaPause (m : Nat → Option AudioElem) (id : Nat) : Nat → Option AudioElem :=
  fun j => if j = id then (m j).map (fun e => { e with paused := true }) else m j

/-- Successful `audio.play()` on the element with the given identifier. -/
def mediaPlay (m : Nat → Option AudioElem) (id : Nat) : Nat → Option AudioElem :=
  fun j => if j = id then (m j).map (fun e => { e with paused := false }) else m j

/-- The assignment `audio.currentTime = t`. -/
def mediaSetTime (m : Nat → Option AudioElem) (id : Nat) (t : ℚ) : Nat → Option AudioElem :=
  fun j => if j = id then (m j).map (fun e => { e with currentTime := t }) else m j

/-- The progress value the component reads for a category:
`audioProgress[type] || 0`. -/
def progressOf (s : AppState) (c : String) : ℚ :=
  (objGet s.audioProgress c).getD 0

/-- A category counts as playing exactly when `playingAudio` holds it. -/
def isPlaying (s : AppState) (c : String) : Prop :=
  s.playingAudio = some c

/-- `handlePlayPause(protocolType)` — the click handler.

React closure semantics are kept: every read of a `useState` variable in
the handler body uses the snapshot `s`, while the `set…(prev => …)`
updates compose on the threaded result.  In particular the read
`const audio = audioRefs[protocolType]` on the line after
`setAudioRefs(prev => ({ ...prev, [protocolType]: audio }))` still sees
the snapshot map, so on the first call for a category the handler takes
the `if (!audio)` early return (logging "Audio element not found") after
having created and stored the element — playback does not start.
`audio.play()` returns a promise; its rejection handler is the separate
operation `playCatchListener`.  The `a !== audio` identity comparison in
the pause-others loop becomes comparison of element identifiers, which
are unique by construction (`nextId` is fresh for every element). -/
def handlePlayPause (protocolType : String) (s : AppState) : AppState :=
  let audioFile := getAudioFile protocolType s.selectedUser.id
  if audioFile = "" then s
  else
    let s1 :=
      match objGet s.audioRefs protocolType with
      | some _ => s
      | none =>
          { s with
            media := fun j =>
              if j = s.nextId then
                some { src := audioFile, currentTime := 0, duration := none, paused := true }
              else s.media j,
            nextId := s.nextId + 1,
            audioRefs := objSet s.audioRefs protocolType s.nextId }
    match objGet s.audioRefs protocolType with
    | none => s1
    | some audioId =>
        if s.playingAudio = some protocolType then
          { s1 with media := mediaPause s1.media audioId, playingAudio := none }
        else
          let m2 := (s.audioRefs.filter (fun kv => kv.2 != audioId)).foldl
              (fun m kv => mediaPause m kv.2) s1.media
          { s1 with media := mediaPlay m2 audioId, playingAudio := some protocolType }

/-- The `ended` listener of the element created for `protocolType`. -/
def endedListener (protocolType : String) (s : AppState) : AppState :=
  { s with playingAudio := none,
           audioProgress := objSet s.audioProgress protocolType 0 }

/-- The `pause` listener (fired after `audio.pause()`): only clears
`playingAudio`; progress, duration and elapsed time are untouched. -/
def pauseListener (s : AppState) : AppState :=
  { s with playingAudio := none }

/-- The `loadedmetadata` listener: records `audio.duration` (now a known
number `d`) for the category. -/
def loadedmetadataListener (protocolType : String) (d : ℚ) (s : AppState) : AppState :=
  { s with audioDuration := objSet s.audioDuration protocolType d }

/-- The `timeupdate` listener: guarded by the truthiness of
`audio.duration` (`NaN` — modelled `none` — and `0` are falsy); when the
guard passes it stores `currentTime / duration * 100`, otherwise the
stored progress is left as it was. -/
def timeupdateListener (protocolType : String) (audio : AudioElem) (s : AppState) : AppState :=
  match audio.duration with
  | none => s
  | some d =>
      if d = 0 then s
      else { s with
              audioProgress :=
                objSet s.audioProgress protocolType (audio.currentTime / d * 100) }

/-- The `error` listener of an audio element: clears `playingAudio`. -/
def errorListener (s : AppState) : AppState :=
  { s with playingAudio := none }

/-- The rejection handler of `audio.play().catch(...)`: clears
`playingAudio`. -/
def playCatchListener (s : AppState) : AppState :=
  { s with playingAudio := none }

/-- `handleSeek(protocolType, event)` with the click geometry made
explicit: `clickX = event.clientX - rect.left` and `width = rect.width`;
the handler computes `percentage = clickX / width` itself.  The guard
`if (!audio || !audio.duration) return` makes it a no-op when no element
exists or its duration is still unknown (`NaN`, modelled `none`) or `0`
(both falsy).  Otherwise it assigns `audio.currentTime` and updates the
stored progress immediately. -/
def handleSeek (protocolType : String) (clickX width : ℚ) (s : AppState) : AppState :=
  match objGet s.audioRefs protocolType with
  | none => s
  | some audioId =>
      match s.media audioId with
      | none => s
      | some audio =>
          match audio.duration with
          | none => s
          | some d =>
              if d = 0 then s
              else
                let percentage := clickX / width
                let newTime := percentage * d
                { s with
                  media := mediaSetTime s.media audioId newTime,
                  audioProgress := objSet s.audioProgress protocolType (percentage * 100) }

/-- The `onClick` of a user button in the selector (lines 410–418): sets
the new user, hides the selector and resets the React audio state.  Note
it only drops the *references* — no `pause()` is ever called on the
elements, so the media layer is untouched. -/
def userSwitchClick (u : User) (s : AppState) : AppState :=
  { s with
    selectedUser := u,
    showUserSelector := false,
    playingAudio := none,
    audioRefs := [],
    audioProgress := [],
    audioDuration := [] }

/-- Result of one `fetch` of a protocol JSON document: the HTTP-success
flag `ok` and the document the body parses to. -/
structure FetchResult where
  ok : Bool
  doc : Protocol
deriving DecidableEq

/-- The synchronous prefix of `loadProtocols` (before the `await`s):
`setLoading(true); setError(null)`.  The three fetches it issues are for
`s.selectedUser.id`; their settlement is `resolveLoad`. -/
def issueLoad (s : AppState) : AppState :=
  { s with loading := true, error := none }

/-- The resumption of `loadProtocols` after both `Promise.all`s settle,
applied to whatever the component state is *at that time*.  The
continuation contains no check that the selected user is still the one
the fetches were issued for: on success it unconditionally runs
`setProtocols([supplements, nutrition, exercise])`; on any non-ok
response it throws, and the `catch` sets the error message; `finally`
clears `loading`. -/
def resolveLoad (supplementsRes nutritionRes exerciseRes : FetchResult) (s : AppState) : AppState :=
  if supplementsRes.ok && nutritionRes.ok && exerciseRes.ok then
    { s with
      protocols := [supplementsRes.doc, nutritionRes.doc, exerciseRes.doc],
      loading := false }
  else
    { s with
      error := some "Failed to load protocol data. Please refresh the page.",
      loading := false }

/-- JavaScript `Promise.all` over the three fetch promises (index 0 =
supplements, 1 = nutrition, 2 = exercise), parameterised by the order in
which the individual fetches settle.  It settles once every fetch has
(the order is a permutation of all three indices), and then yields the
results positionally, by construction independent of the order. -/
def promiseAll3 (order : List (Fin 3)) (res : Fin 3 → FetchResult) :
    Option (FetchResult × FetchResult × FetchResult) :=
  if List.Perm order [0, 1, 2] then some (res 0, res 1, res 2) else none

/-- One whole run of `loadProtocols` with the given fetch outcomes and
settlement order, from issuing to (when all fetches settle) resolution. -/
def loadProtocols (order : List (Fin 3)) (res : Fin 3 → FetchResult) (s : AppState) : AppState :=
  match promiseAll3 order res with
  | none => issueLoad s
  | some (sr, nr, er) => resolveLoad sr nr er (issueLoad s)

/-- The second roster entry, Tyler. -/
def tylerUser : User := users.get ⟨1, by decide⟩

/-- A session state in which the "exercise" narration is actively
playing: its element (identifier 0) exists, is not paused, and the React
state carries its ref, progress and duration. -/
def playingExerciseState : AppState :=
  { initState with
    playingAudio := some "exercise",
    audioRefs := [("exercise", 0)],
    audioProgress := [("exercise", 42)],
    audioDuration := [("exercise", 200)],
    media := fun j =>
      if j = 0 then
        some { src := "/data/nik_exercise.mp3", currentTime := 84,
               duration := some 200, paused := false }
      else none,
    nextId := 1 }

/-- The "nutrition" element of `seekDemoState`: metadata loaded,
duration 200 seconds. -/
def seekDemoElem : AudioElem :=
  { src := "/data/nik_nutrition.mp3", currentTime := 0,
    duration := some 200, paused := false }

/-- A state with a "nutrition" element of known duration 200, playing. -/
def seekDemoState : AppState :=
  { initState with
    playingAudio := some "nutrition",
    audioRefs := [("nutrition", 0)],
    audioDuration := [("nutrition", 200)],
    media := fun j => if j = 0 then some seekDemoElem else none,
    nextId := 1 }

/-- The "nutrition" element before its metadata has loaded. -/
def seekNoDurElem : AudioElem :=
  { src := "/data/nik_nutrition.mp3", currentTime := 0,
    duration := none, paused := false }

/-- A state with a "nutrition" element whose duration is still unknown. -/
def seekNoDurState : AppState :=
  { initState with
    playingAudio := some "nutrition",
    audioRefs := [("nutrition", 0)],
    media := fun j => if j = 0 then some seekNoDurElem else none,
    nextId := 1 }

/-- A concrete protocol document (interventions left empty; only the
identity of the document matters for the loader scenarios). -/
def mkDoc (t title : String) (n : Nat) : Protocol :=
  { protocol_type := t, title := title, interventions := [], total_interventions := n }

/-- Three successful fetch results for the demo loader run: D1
(supplements, 5 interventions), D2 (nutrition, 3), D3 (exercise, 7). -/
def demoRes : Fin 3 → FetchResult := fun i =>
  if i = 0 then { ok := true, doc := mkDoc "supplements" "D1" 5 }
  else if i = 1 then { ok := true, doc := mkDoc "nutrition" "D2" 3 }
  else { ok := true, doc := mkDoc "exercise" "D3" 7 }

/-- Fetch results in which the nutrition fetch failed while the other
two succeeded. -/
def demoResNutritionFail : Fin 3 → FetchResult := fun i =>
  if i = 0 then { ok := true, doc := mkDoc "supplements" "D1" 5 }
  else if i = 1 then { ok := false, doc := mkDoc "nutrition" "D2" 3 }
  else { ok := true, doc := mkDoc "exercise" "D3" 7 }

/-- Nik's protocol document for a category. -/
def nikDoc (k : String) : Protocol := mkDoc k ("Nik " ++ k) 1

/-- Tyler's protocol document for a category. -/
def tylerDoc (k : String) : Protocol := mkDoc k ("Tyler " ++ k) 2

theorem objGet_objSet_self {α : Type} (m : List (String × α)) (k : String) (v : α) :
    objGet (objSet m k v) k = some v := by
  induction m with
  | nil => simp [objGet, objSet]
  | cons kv rest ih =>
      by_cases h : kv.1 = k
      · simp [objGet, objSet, h]
      · simp [objGet, objSet, h, ih]

/-- Claim C1: in every state of the playback controller, at most one
category's playing flag is set — the code stores the currently playing
track as the single nullable `playingAudio` value, so if two categories
are both observed playing they are the same category; since this holds
of every state, every operation of the controller trivially preserves
it. -/
theorem playback_mutual_exclusion (s : AppState) (c₁ c₂ : String)
    (h₁ : isPlaying s c₁) (h₂ : isPlaying s c₂) : c₁ = c₂ := by
  unfold isPlaying at h₁ h₂
  rw [h₁] at h₂
  exact Option.some.inj h₂

/-- Witness for C1: a concrete state in which "exercise" is playing,
with the mutual-exclusion theorem applied at it. -/
theorem playback_mutual_exclusion_witness :
    isPlaying playingExerciseState "exercise" ∧ "exercise" = "exercise" := by
  have h : isPlaying playingExerciseState "exercise" := rfl
  exact ⟨h, playback_mutual_exclusion playingExerciseState "exercise" "exercise" h h⟩

/-- Claim C2, evaluated on the code: from a fresh state, the first
`handlePlayPause("supplements")` creates and stores the audio element but
leaves `playingAudio` at `none` — the handler's read of
`audioRefs[protocolType]` sees the pre-update snapshot, so it takes the
`if (!audio) return` path instead of starting playback; only the second
call starts playback.  This refutes the claim that the first of two
successive calls sets the playing flag and the second clears it. -/
theorem first_toggle_creates_but_does_not_play :
    (handlePlayPause "supplements" initState).playingAudio = none ∧
    objGet (handlePlayPause "supplements" initState).audioRefs "supplements" = some 0 ∧
    (handlePlayPause "supplements" (handlePlayPause "supplements" initState)).playingAudio
      = some "supplements" := by
  exact ⟨rfl, by decide, by decide⟩

/-- Claim C3: the `ended` listener always stores progress 0 for its
category and clears the playing flag, whatever the prior progress was;
the `pause` listener, by contrast, leaves every category's progress
unchanged. -/
theorem ended_resets_progress_pause_preserves (s : AppState) (c : String) :
    progressOf (endedListener c s) c = 0 ∧
    (endedListener c s).playingAudio = none ∧
    (∀ c2 : String, progressOf (pauseListener s) c2 = progressOf s c2) := by
  refine ⟨?_, rfl, fun c2 => rfl⟩
  unfold progressOf endedListener
  simp [objGet_objSet_self]

/-- Claim C7, evaluated on the code: switching the user while the
"exercise" element is playing clears the refs, flags, progress and
duration maps, but the element itself is never paused — after the switch
the discarded element still has `paused = false`, refuting the claim
that every still-playing resource is explicitly stopped before being
discarded. -/
theorem user_switch_does_not_stop_audio :
    (userSwitchClick tylerUser playingExerciseState).audioRefs = [] ∧
    (userSwitchClick tylerUser playingExerciseState).playingAudio = none ∧
    (userSwitchClick tylerUser playingExerciseState).audioProgress = [] ∧
    (userSwitchClick tylerUser playingExerciseState).audioDuration = [] ∧
    ((userSwitchClick tylerUser playingExerciseState).media 0).map AudioElem.paused
      = some false := by
  exact ⟨rfl, rfl, rfl, rfl, rfl⟩

/-- Claim C10: for a category outside {supplements, nutrition, exercise},
`getAudioFile` returns the empty string and `handlePlayPause` returns the
state unchanged — no element is created, nothing in the playback state
moves. -/
theorem unknown_category_noop (s : AppState) (t : String)
    (h1 : t ≠ "supplements") (h2 : t ≠ "nutrition") (h3 : t ≠ "exercise") :
    getAudioFile t s.selectedUser.id = "" ∧ handlePlayPause t s = s := by
  have hf : getAudioFile t s.selectedUser.id = "" := by
    unfold getAudioFile
    rw [if_neg h3, if_neg h2, if_neg h1]
  refine ⟨hf, ?_⟩
  unfold handlePlayPause
  simp [hf]

/-- Witness for C10 at the concrete category "yoga". -/
theorem unknown_category_noop_witness :
    getAudioFile "yoga" initState.selectedUser.id = "" ∧
    handlePlayPause "yoga" initState = initState :=
  unknown_category_noop initState "yoga" (by decide) (by decide) (by decide)

/-- Claim C4: when no element exists for the category or its duration is
still unknown, `handleSeek` changes nothing; when the duration `d` is
known (and nonzero, the truthiness of `audio.duration`), it sets the
element's current time to `(clickX / width) * d` and the stored progress
to `(clickX / width) * 100` in the same operation, without waiting for a
`timeupdate`. -/
theorem seek_noop_or_immediate (s : AppState) (c : String) (x w : ℚ) :
    ((objGet s.audioRefs c = none → handleSeek c x w s = s) ∧
     (∀ id audio, objGet s.audioRefs c = some id → s.media id = some audio →
        audio.duration = none → handleSeek c x w s = s)) ∧
    (∀ id audio d, objGet s.audioRefs c = some id → s.media id = some audio →
        audio.duration = some d → d ≠ 0 →
        (handleSeek c x w s).media id = some { audio with currentTime := x / w * d } ∧
        progressOf (handleSeek c x w s) c = x / w * 100) := by
  refine ⟨⟨?_, ?_⟩, ?_⟩
  · intro h
    simp [handleSeek, h]
  · intro id audio hid hm hd
    simp [handleSeek, hid, hm, hd]
  · intro id audio d hid hm hd hne
    have hrun : handleSeek c x w s =
        { s with
          media := mediaSetTime s.media id (x / w * d),
          audioProgress := objSet s.audioProgress c (x / w * 100) } := by
      simp [handleSeek, hid, hm, hd, hne]
    constructor
    · rw [hrun]
      simp [mediaSetTime, hm]
    · rw [hrun]
      unfold progressOf
      simp [objGet_objSet_self]

/-- Witness for C4: on a duration-unknown element the seek is a no-op;
on a duration-200 element a click at half the bar width sets the current
time to 100 and the progress to 50 immediately. -/
theorem seek_noop_or_immediate_witness :
    handleSeek "nutrition" 1 2 seekNoDurState = seekNoDurState ∧
    (handleSeek "nutrition" 1 2 seekDemoState).media 0 =
      some { seekDemoElem with currentTime := 100 } ∧
    progressOf (handleSeek "nutrition" 1 2 seekDemoState) "nutrition" = 50 := by
  have h0 := (seek_noop_or_immediate seekNoDurState "nutrition" 1 2).1.2
    0 seekNoDurElem rfl rfl rfl
  have h1 := (seek_noop_or_immediate seekDemoState "nutrition" 1 2).2
    0 seekDemoElem 200 rfl rfl rfl (by norm_num)
  have ht : (1 : ℚ) / 2 * 200 = 100 := by norm_num
  have hp : (1 : ℚ) / 2 * 100 = 50 := by norm_num
  refine ⟨h0, ?_, ?_⟩
  · rw [h1.1, ht]
  · rw [h1.2, hp]

/-- Claim C5: whatever the order in which the three fetches settle, when
all of them succeed the loader stores the protocol list positionally —
`[supplements, nutrition, exercise]` — and leaves no error. -/
theorem loader_fixed_order (order : List (Fin 3)) (res : Fin 3 → FetchResult) (s : AppState)
    (hperm : List.Perm order [0, 1, 2])
    (h0 : (res 0).ok = true) (h1 : (res 1).ok = true) (h2 : (res 2).ok = true) :
    (loadProtocols order res s).protocols = [(res 0).doc, (res 1).doc, (res 2).doc] ∧
    (loadProtocols order res s).error = none := by
  unfold loadProtocols promiseAll3
  rw [if_pos hperm]
  unfold resolveLoad issueLoad
  simp [h0, h1, h2]

/-- Witness for C5: the three demo documents fetched with settlement
order exercise, supplements, nutrition still come out as
[D1, D2, D3] = [supplements, nutrition, exercise]. -/
theorem loader_fixed_order_witness :
    (loadProtocols [2, 0, 1] demoRes initState).protocols =
      [mkDoc "supplements" "D1" 5, mkDoc "nutrition" "D2" 3, mkDoc "exercise" "D3" 7] ∧
    (loadProtocols [2, 0, 1] demoRes initState).error = none :=
  loader_fixed_order [2, 0, 1] demoRes initState (by decide) rfl rfl rfl

/-- Claim C6: if any one of the three fetches is non-ok, the whole load
resolves to the error message and the protocol list is left exactly as
it was — none of the documents of this load is surfaced. -/
theorem loader_all_or_nothing (order : List (Fin 3)) (res : Fin 3 → FetchResult) (s : AppState)
    (hperm : List.Perm order [0, 1, 2])
    (hfail : (res 0).ok = false ∨ (res 1).ok = false ∨ (res 2).ok = false) :
    (loadProtocols order res s).error =
      some "Failed to load protocol data. Please refresh the page." ∧
    (loadProtocols order res s).protocols = s.protocols := by
  unfold loadProtocols promiseAll3
  rw [if_pos hperm]
  unfold resolveLoad issueLoad
  rcases hfail with h | h | h <;> simp [h]

/-- Witness for C6: the nutrition fetch fails while the other two
succeed; the load errors out and no protocols are stored. -/
theorem loader_all_or_nothing_witness :
    (loadProtocols [0, 1, 2] demoResNutritionFail initState).error =
      some "Failed to load protocol data. Please refresh the page." ∧
    (loadProtocols [0, 1, 2] demoResNutritionFail initState).protocols =
      initState.protocols :=
  loader_all_or_nothing [0, 1, 2] demoResNutritionFail initState (by decide)
    (Or.inr (Or.inl rfl))

/-- The final state of the stale-fetch scenario: Nik's load is in
flight, the user switches to Tyler (a fresh load is issued), Tyler's
fetches settle first, and then Nik's in-flight fetches settle last. -/
def staleScenarioFinal : AppState :=
  resolveLoad { ok := true, doc := nikDoc "supplements" }
    { ok := true, doc := nikDoc "nutrition" }
    { ok := true, doc := nikDoc "exercise" }
    (resolveLoad { ok := true, doc := tylerDoc "supplements" }
      { ok := true, doc := tylerDoc "nutrition" }
      { ok := true, doc := tylerDoc "exercise" }
      (issueLoad (userSwitchClick tylerUser (issueLoad initState))))

/-- Claim C8, evaluated on the code: the loader's continuation carries no
stale-response guard, so when the fetch issued for Nik resolves after the
switch to Tyler it overwrites the protocol list with Nik's documents —
the displayed list for Tyler is the stale data, refuting the claim that a
late result for the previous user is never applied. -/
theorem stale_fetch_result_applied :
    staleScenarioFinal.selectedUser.id = "tyler" ∧
    staleScenarioFinal.protocols =
      [nikDoc "supplements", nikDoc "nutrition", nikDoc "exercise"] ∧
    nikDoc "supplements" ≠ tylerDoc "supplements" := by
  exact ⟨rfl, rfl, by decide⟩

/-- Claim C9: when the element's duration is unknown the `timeupdate`
listener leaves the state — hence the stored progress — untouched; when
a positive duration `d` is known and the playback clock satisfies
`0 ≤ currentTime ≤ d` (the range the media element confines it to), the
stored progress becomes `currentTime / d * 100`, which lies in
`[0, 100]`. -/
theorem timeupdate_progress_spec (c : String) (audio : AudioElem) (s : AppState) :
    (audio.duration = none → timeupdateListener c audio s = s) ∧
    (∀ d : ℚ, audio.duration = some d → 0 < d →
        0 ≤ audio.currentTime → audio.currentTime ≤ d →
        progressOf (timeupdateListener c audio s) c = audio.currentTime / d * 100 ∧
        0 ≤ progressOf (timeupdateListener c audio s) c ∧
        progressOf (timeupdateListener c audio s) c ≤ 100) := by
  constructor
  · intro h
    simp [timeupdateListener, h]
  · intro d hd hdpos h0 h1
    have hne : ¬d = 0 := ne_of_gt hdpos
    have hval : progressOf (timeupdateListener c audio s) c =
        audio.currentTime / d * 100 := by
      simp [timeupdateListener, hd, hne, progressOf, objGet_objSet_self]
    refine ⟨hval, ?_, ?_⟩
    · rw [hval]
      exact mul_nonneg (div_nonneg h0 hdpos.le) (by norm_num)
    · rw [hval]
      have hle1 : audio.currentTime / d ≤ 1 := (div_le_one hdpos).mpr h1
      calc audio.currentTime / d * 100 ≤ 1 * 100 :=
            mul_le_mul_of_nonneg_right hle1 (by norm_num)
        _ = 100 := by norm_num

/-- The element for the C9 witness: duration 200, playback clock at 150. -/
def timeupdateDemoElem : AudioElem :=
  { src := "/data/nik_exercise.mp3", currentTime := 150,
    duration := some 200, paused := false }

/-- Witness for C9: with duration unknown the listener is the identity;
with duration 200 and current time 150 the stored progress becomes 75. -/
theorem timeupdate_progress_spec_witness :
    timeupdateListener "exercise" seekNoDurElem initState = initState ∧
    progressOf (timeupdateListener "exercise" timeupdateDemoElem initState) "exercise"
      = 75 := by
  have h0 := (timeupdate_progress_spec "exercise" seekNoDurElem initState).1 rfl
  have h1 := (timeupdate_progress_spec "exercise" timeupdateDemoElem initState).2
    200 rfl (by norm_num) (by norm_num [timeupdateDemoElem]) (by norm_num [timeupdateDemoElem])
  refine ⟨h0, ?_⟩
  rw [h1.1]
  norm_num [timeupdateDemoElem]

end ProtocolViewer
